import Mathlib

/-!
Verification of the Validata rule-based field validation engine.

The definitions below are a shallow embedding of the four validator
modules of the repository: the legacy single-dataset ICD-10 validator
(icd10_validation.py), the cross-dataset ICD-10 validator
(multi_dataset_validation.py), the legacy ICD-O validator
(icdo_validation.py) and the cross-dataset ICD-O validator with fuzzy
matching (multi_dataset_icdo_validation.py).

Scalar cell values are modelled by the inductive type `Value`, covering
the Python scalars that the validators branch on: `None`, float NaN
(the pandas missing-value marker), integers, booleans and strings.
Python semantics that the source relies on (equality with `True == 1`,
`pd.isna`, truthiness, `str`) are modelled explicitly.
-/

/-- Scalar cell values as the validators see them. -/
inductive Value
  | VNone
  | VNaN
  | VInt (n : Int)
  | VBool (b : Bool)
  | VStr (s : String)
deriving DecidableEq, Repr

/-- Python double-quote-free single quote character, used in all issue messages. -/
def squo : String := String.singleton (Char.ofNat 39)

/-- Newline as a string, for trailing-newline regex tests. -/
def nl : String := String.singleton (Char.ofNat 10)

/-- Model of pandas `pd.isna`: true exactly on `None` and float NaN. -/
def pyIsNA : Value → Bool
  | .VNone => true
  | .VNaN => true
  | _ => false

/-- Model of Python `==` on the scalars involved: `True == 1`, `False == 0`,
NaN is not equal to anything (including itself), no cross-type string/number
equalities. -/
def pyEq : Value → Value → Bool
  | .VInt m, .VInt n => m == n
  | .VInt m, .VBool b => m == (if b then 1 else 0)
  | .VBool b, .VInt n => (if b then 1 else 0) == n
  | .VBool a, .VBool b => a == b
  | .VStr a, .VStr b => a == b
  | .VNone, .VNone => true
  | _, _ => false

/-- Model of Python `value in list` membership, via `pyEq`. -/
def pyMem (v : Value) (l : List Value) : Bool :=
  l.any (pyEq v)

/-- Model of Python truthiness for the scalars involved: `None` is falsy,
NaN is truthy, `0`, `False` and the empty string are falsy. -/
def pyTruthy : Value → Bool
  | .VNone => false
  | .VNaN => true
  | .VInt n => !(n == 0)
  | .VBool b => b
  | .VStr s => !(s == ("" : String))

/-- Model of Python `str` on the scalars involved. -/
def pyStr : Value → String
  | .VNone => ("None")
  | .VNaN => ("nan")
  | .VInt n => toString n
  | .VBool b => if b then ("True") else ("False")
  | .VStr s => s

/-- Result of evaluating one rule on one cell: valid tally increment, an
issue message, or neither (a silent fall-through of the source's
if/elif chain). -/
inductive Outcome
  | valid
  | issue (msg : String)
  | skip
deriving DecidableEq, Repr

/-- Boolean test for the issue outcome. -/
def Outcome.isIssue : Outcome → Bool
  | .issue _ => true
  | _ => false

deriving instance DecidableEq for Except

/-- Boolean test for the issue outcome under the exception monad. -/
def exceptIsIssue : Except String Outcome → Bool
  | .ok o => o.isIssue
  | .error _ => false

/-- The `standard_values` entry of a rule: either a list of allowed strings
or one of the placeholder tag strings of the source
(`ICD10 Codes`, `ICD code list`). -/
inductive StdVals
  | vlist (l : List String)
  | vtag (t : String)
deriving DecidableEq, Repr

/-- Rule record of the legacy ICD-10 validator (icd10_validation.py). -/
structure LegacyRule where
  allow_null : Bool
  standard_values : Option StdVals
  binary : Bool
deriving DecidableEq, Repr

/-- Column list gating the tally dictionary in both ICD-10 validators. -/
def icd10Columns : List String :=
  [("Cause of Death"), ("Cause of Death Attributable to Treatment"),
   ("Vital Status"), ("ICD Version"), ("ICD Code"), ("Disability"),
   ("On Clinical Trial"), ("Clinical Trial Numbers")]

/-- Allowed values for Cause of Death Attributable to Treatment. -/
def codAttVals : List String :=
  [("Unknown"), ("Probably Related"), ("Definitely Related")]

/-- Allowed values for Disability. -/
def disabilityVals : List String :=
  [("Hearing difficulty"), ("Vision difficulty"), ("Cognitive difficulty"),
   ("Ambulatory difficulty"), ("Self-care difficulty"),
   ("Independent living difficulty")]

/-- Rule catalog of the legacy ICD-10 validator, in the source's
declaration order. -/
def legacyRules : List (String × LegacyRule) :=
  [(("Cause of Death"), ⟨true, some (.vtag ("ICD10 Codes")), false⟩),
   (("Cause of Death Attributable to Treatment"), ⟨true, some (.vlist codAttVals), false⟩),
   (("Vital Status"), ⟨false, some (.vlist [("Alive"), ("Dead")]), false⟩),
   (("ICD Version"), ⟨false, some (.vlist [("ICD9"), ("ICD10")]), false⟩),
   (("ICD Code"), ⟨false, some (.vtag ("ICD code list")), false⟩),
   (("Disability"), ⟨true, some (.vlist disabilityVals), false⟩),
   (("On Clinical Trial"), ⟨true, none, true⟩),
   (("Clinical Trial Numbers"), ⟨true, none, false⟩)]

/-- The legacy rule for On Clinical Trial. -/
def octLegacyRule : LegacyRule := ⟨true, none, true⟩

/-- The legacy rule for Vital Status. -/
def vitalLegacyRule : LegacyRule := ⟨false, some (.vlist [("Alive"), ("Dead")]), false⟩

/-- The legacy rule for Clinical Trial Numbers. -/
def ctnLegacyRule : LegacyRule := ⟨true, none, false⟩

/-- Lower-casing of a string, character by character (the effect of Python
`.lower()` on the ASCII data involved). -/
def strLower (s : String) : String := String.mk (s.data.map Char.toLower)

/-- Whitespace trimming of both ends (the effect of Python `.strip()`). -/
def strTrim (s : String) : String :=
  String.mk (((s.data.dropWhile Char.isWhitespace).reverse.dropWhile Char.isWhitespace).reverse)

/-- The normalization `value.strip().lower()` used by the fuzzy-path
validators. -/
def pyStripLower (s : String) : String := strLower (strTrim s)

/-- Placeholder ICD-10 code check of the source: `code.startswith('C')`,
here a head-character test on the string data.  Python raises
AttributeError when the value is not a string; this is modelled by the
error branch. -/
def validate_icd10_code : Value → Except String Bool
  | .VStr s =>
    .ok (match s.data with
         | c :: _ => c == Char.ofNat 67
         | [] => false)
  | _ => .error ("AttributeError: startswith on non-string")

/-- Shared header of the legacy issue messages: the 1-based row number and
the quoted column name. -/
def rowColHeader (idx : Nat) (column : String) : String :=
  ("Row ") ++ toString (idx + 1) ++ (", Column ") ++ squo ++ column ++ squo ++ (": ")

/-- Legacy issue message of the binary branch. -/
def legacyBinaryMsg (idx : Nat) (column : String) (v : Value) : String :=
  rowColHeader idx column ++ ("Invalid value: ") ++ squo ++ pyStr v ++ squo ++
    (". Suggested correction: Should be ") ++ squo ++ ("1") ++ squo ++
    (" if the patient is on a clinical trial, otherwise leave blank.")

/-- Legacy issue message of the standard-values branch; the allowed values
are joined with a comma and space as in the source. -/
def legacyStdMsg (idx : Nat) (column : String) (v : Value) (l : List String) : String :=
  rowColHeader idx column ++ ("Invalid value: ") ++ squo ++ pyStr v ++ squo ++
    (". Suggested correction: Use one of the standard values, such as ") ++
    String.intercalate (", ") l ++ (".")

/-- Legacy issue message of the ICD-10-code branch. -/
def legacyICDMsg (idx : Nat) (column : String) (v : Value) : String :=
  rowColHeader idx column ++ ("Invalid ICD-10 code: ") ++ squo ++ pyStr v ++ squo ++
    (". Please refer to the ICD-10 codes for a valid entry.")

/-- Per-cell evaluation of the legacy ICD-10 validator, translating the
if/elif chain of `validate_icd10` in icd10_validation.py.  An unhandled
`standard_values` tag or an absent `standard_values` entry falls through
with no effect (`Outcome.skip`); a non-string Cause of Death reaches
`startswith` and raises. -/
def evalLegacyCell (idx : Nat) (column : String) (rule : LegacyRule) (v : Value) :
    Except String Outcome :=
  if pyIsNA v && rule.allow_null then .ok .valid
  else if rule.binary then
    if pyMem v [.VInt 1, .VNone] then .ok .valid
    else .ok (.issue (legacyBinaryMsg idx column v))
  else
    match rule.standard_values with
    | some (.vlist l) =>
        if pyMem v (l.map .VStr) then .ok .valid
        else .ok (.issue (legacyStdMsg idx column v l))
    | some (.vtag t) =>
        if t = ("ICD10 Codes") then
          match validate_icd10_code v with
          | .ok true => .ok .valid
          | .ok false => .ok (.issue (legacyICDMsg idx column v))
          | .error e => .error e
        else .ok .skip
    | none => .ok .skip

/-- Row of a tabular dataset: an association list from column name to value. -/
abbrev Row := List (String × Value)

/-- Cell lookup with a default, modelling pandas `row.get(column, default)`. -/
def rowGet (row : Row) (c : String) (dflt : Value) : Value :=
  match row.find? (fun p => p.1 == c) with
  | some p => p.2
  | none => dflt

/-- Dataset: the column list and the rows. -/
structure Dataset where
  columns : List String
  rows : List Row

/-- Tally list: column name with its valid count and total count, in the
order of the source's tally dictionary. -/
abbrev Tallies := List (String × Nat × Nat)

/-- Initial tallies of the ICD-10 validators: one `(0, 0)` entry per dataset
column that is in the fixed ICD-10 column list, in dataset-column order. -/
def tallyInit (cols : List String) : Tallies :=
  (cols.filter (fun c => icd10Columns.contains c)).map (fun c => (c, 0, 0))

/-- Update the tally of one column: the total count is always incremented,
the valid count only when the outcome was valid. -/
def updTally : Tallies → String → Bool → Tallies
  | [], _, _ => []
  | (a, vn, tn) :: rest, c, isValid =>
    if a = c then (a, (if isValid then vn + 1 else vn), tn + 1) :: rest
    else (a, vn, tn) :: updTally rest c isValid

/-- Accumulator of the dataset-level ICD-10 validators. -/
structure Icd10Acc where
  issues : List String
  tallies : Tallies
deriving DecidableEq, Repr

/-- One rule application of the legacy dataset loop: skip columns absent
from the dataset, otherwise tally the evaluation outcome. -/
def legacyRuleStep (cols : List String) (idx : Nat) (row : Row)
    (acc : Icd10Acc) (cr : String × LegacyRule) : Except String Icd10Acc :=
  if cols.contains cr.1 then
    let v := rowGet row cr.1 .VNone
    match evalLegacyCell idx cr.1 cr.2 v with
    | .ok .valid => .ok (Icd10Acc.mk acc.issues (updTally acc.tallies cr.1 true))
    | .ok (.issue m) => .ok (Icd10Acc.mk (acc.issues ++ [m]) (updTally acc.tallies cr.1 false))
    | .ok .skip => .ok (Icd10Acc.mk acc.issues (updTally acc.tallies cr.1 false))
    | .error e => .error e
  else .ok acc

/-- One row of the legacy dataset loop: the rules are applied in catalog
order. -/
def legacyRowStep (cols : List String) (acc : Icd10Acc) (ir : Nat × Row) :
    Except String Icd10Acc :=
  legacyRules.foldlM (legacyRuleStep cols ir.1 ir.2) acc

/-- Dataset-level legacy ICD-10 validator, translating `validate_icd10` of
icd10_validation.py: returns the ordered issue list and the per-column
tallies, or propagates the AttributeError that a non-string Cause of
Death raises. -/
def validateICD10Legacy (ds : Dataset) : Except String (List String × Tallies) := do
  let fin ← ds.rows.enum.foldlM (legacyRowStep ds.columns) (Icd10Acc.mk [] (tallyInit ds.columns))
  pure (fin.issues, fin.tallies)

/-!
Cause-of-Death regex of the cross-dataset ICD-10 validator.

The declared pattern is
`^C\d{1,2}(\.\d+)?(-C\d{1,2}(\.\d+)?)?(,C\d{1,2}(\.\d+)?(-C\d{1,2}(\.\d+)?)?)*$`.
It is compiled here into a deterministic recognizer: after the digits of a
code the next character can never be a digit again, so greedy consumption
needs no backtracking.  `re.match` anchors at the start, and Python's `$`
accepts the end of the string or a position just before one final newline;
`pyMatchCoD` reproduces that, while `specFullMatchCoD` is the spec's
full-string anchored reading (empty remainder only).
-/

/-- Consume at most one further digit (the second digit of `\d{1,2}`). -/
def drop01Digit : List Char → List Char
  | [] => []
  | d :: r => if d.isDigit then r else d :: r

/-- Consume the optional fraction `(\.\d+)?`: a dot must be followed by at
least one digit, which are consumed greedily. -/
def dropFrac : List Char → Option (List Char)
  | [] => some []
  | c :: r =>
    if c = Char.ofNat 46 then
      if r.takeWhile Char.isDigit = [] then none
      else some (r.dropWhile Char.isDigit)
    else some (c :: r)

/-- Consume one code `C\d{1,2}(\.\d+)?`. -/
def parseCode : List Char → Option (List Char)
  | c :: d :: r =>
    if c = Char.ofNat 67 then
      if d.isDigit then dropFrac (drop01Digit r) else none
    else none
  | _ => none

/-- Consume one range `code(-code)?`. -/
def parseRange (cs : List Char) : Option (List Char) :=
  match parseCode cs with
  | none => none
  | some r =>
    match r with
    | c :: r2 => if c = Char.ofNat 45 then parseCode r2 else some (c :: r2)
    | [] => some []

/-- Consume the trailing repetition `(,range)*`, greedily, with fuel. -/
def parseRanges : Nat → List Char → List Char
  | 0, cs => cs
  | fuel + 1, cs =>
    match cs with
    | c :: r =>
      if c = Char.ofNat 44 then
        match parseRange r with
        | some r2 => parseRanges fuel r2
        | none => cs
      else cs
    | [] => []

/-- Remainder left by the whole pattern body, or `none` when the mandatory
first range fails. -/
def matchCoDAux (cs : List Char) : Option (List Char) :=
  match parseRange cs with
  | some r => some (parseRanges cs.length r)
  | none => none

/-- Model of Python `re.match(pattern, s) is not None` for the declared
Cause-of-Death pattern: the remainder must be empty or a single final
newline (the semantics of `$`). -/
def pyMatchCoD (s : String) : Bool :=
  match matchCoDAux s.data with
  | some r => r == [] || r == [Char.ofNat 10]
  | none => false

/-- Modelled from the spec: the full-string anchored match that section 8
of the spec declares the engine equivalent to — the pattern body must
consume the whole string, with no trailing-newline allowance. -/
def specFullMatchCoD (s : String) : Prop :=
  matchCoDAux s.data = some []

instance (s : String) : Decidable (specFullMatchCoD s) := by
  unfold specFullMatchCoD; infer_instance

/-- Rule record of the cross-dataset ICD-10 validator
(multi_dataset_validation.py); `regex` marks the presence of the
Cause-of-Death pattern. -/
structure MultiRule where
  allow_null : Bool
  regex : Bool
  standard_values : Option StdVals
  binary : Bool
deriving DecidableEq, Repr

/-- Rule catalog of the cross-dataset ICD-10 validator, in the source's
declaration order. -/
def multiRules : List (String × MultiRule) :=
  [(("Cause of Death"), ⟨true, true, none, false⟩),
   (("Cause of Death Attributable to Treatment"), ⟨true, false, some (.vlist codAttVals), false⟩),
   (("Vital Status"), ⟨false, false, some (.vlist [("Alive"), ("Dead")]), false⟩),
   (("ICD Version"), ⟨false, false, some (.vlist [("ICD9"), ("ICD10")]), false⟩),
   (("ICD Code"), ⟨false, false, some (.vtag ("ICD code list")), false⟩),
   (("Disability"), ⟨true, false, some (.vlist disabilityVals), false⟩),
   (("On Clinical Trial"), ⟨true, false, none, true⟩),
   (("Clinical Trial Numbers"), ⟨true, false, none, false⟩)]

/-- The cross-dataset rule for Cause of Death. -/
def codMultiRule : MultiRule := ⟨true, true, none, false⟩

/-- The cross-dataset rule for Vital Status. -/
def vitalMultiRule : MultiRule := ⟨false, false, some (.vlist [("Alive"), ("Dead")]), false⟩

/-- The cross-dataset rule for On Clinical Trial. -/
def octMultiRule : MultiRule := ⟨true, false, none, true⟩

/-- The accepted binary token list of the cross-dataset validator:
`[0, 1, '0', '1', True, False, 'True', 'False']`. -/
def binaryTokens : List Value :=
  [.VInt 0, .VInt 1, .VStr ("0"), .VStr ("1"),
   .VBool true, .VBool false, .VStr ("True"), .VStr ("False")]

/-- Shared header of the cross-dataset issue messages: the dataset name,
the 1-based row number and the quoted column name. -/
def dsRowColHeader (name : String) (idx : Nat) (column : String) : String :=
  ("Dataset: ") ++ name ++ (", ") ++ rowColHeader idx column

/-- Cross-dataset issue message of the regex branch. -/
def multiRegexMsg (name : String) (idx : Nat) (column : String) (v : Value) : String :=
  dsRowColHeader name idx column ++ ("Invalid value: ") ++ squo ++ pyStr v ++ squo ++
    (". Suggested correction: Use a valid ICD-10 code format.")

/-- Cross-dataset issue message of the standard-values branch. -/
def multiStdMsg (name : String) (idx : Nat) (column : String) (v : Value) (l : List String) :
    String :=
  dsRowColHeader name idx column ++ ("Invalid value: ") ++ squo ++ pyStr v ++ squo ++
    (". Suggested correction: Use one of the standard values: ") ++
    String.intercalate (", ") l ++ (".")

/-- Cross-dataset issue message of the binary branch. -/
def multiBinaryMsg (name : String) (idx : Nat) (column : String) (v : Value) : String :=
  dsRowColHeader name idx column ++ ("Invalid value: ") ++ squo ++ pyStr v ++ squo ++
    (". Suggested correction: Use binary values (0 or 1).")

/-- Per-cell evaluation of the cross-dataset ICD-10 validator, translating
the if/elif chain of `validate_icd10` in multi_dataset_validation.py.
The binary branch only ever appends an issue: an accepted token falls
through with no effect, as do the columns whose catalog entry matches no
branch (ICD Code, Clinical Trial Numbers). -/
def evalMultiCell (name : String) (idx : Nat) (column : String) (rule : MultiRule)
    (v : Value) : Outcome :=
  if pyIsNA v && rule.allow_null then .valid
  else if rule.regex then
    if pyMatchCoD (pyStr v) then .valid
    else .issue (multiRegexMsg name idx column v)
  else
    match rule.standard_values with
    | some (.vlist l) =>
        if pyMem v (l.map .VStr) then .valid
        else .issue (multiStdMsg name idx column v l)
    | _ =>
        if rule.binary && !(pyMem v binaryTokens) then
          .issue (multiBinaryMsg name idx column v)
        else .skip

/-- One rule application of the cross-dataset loop. -/
def multiRuleStep (name : String) (cols : List String) (idx : Nat) (row : Row)
    (acc : Icd10Acc) (cr : String × MultiRule) : Icd10Acc :=
  if cols.contains cr.1 then
    let v := rowGet row cr.1 .VNone
    match evalMultiCell name idx cr.1 cr.2 v with
    | .valid => Icd10Acc.mk acc.issues (updTally acc.tallies cr.1 true)
    | .issue m => Icd10Acc.mk (acc.issues ++ [m]) (updTally acc.tallies cr.1 false)
    | .skip => Icd10Acc.mk acc.issues (updTally acc.tallies cr.1 false)
  else acc

/-- One row of the cross-dataset loop. -/
def multiRowStep (name : String) (cols : List String) (acc : Icd10Acc) (ir : Nat × Row) :
    Icd10Acc :=
  multiRules.foldl (multiRuleStep name cols ir.1 ir.2) acc

/-- Dataset-level cross-dataset ICD-10 validator, translating
`validate_icd10` of multi_dataset_validation.py. -/
def validateICD10Multi (ds : Dataset) (name : String) : List String × Tallies :=
  let fin := ds.rows.enum.foldl (multiRowStep name ds.columns) (Icd10Acc.mk [] (tallyInit ds.columns))
  (fin.issues, fin.tallies)

/-!
ICD-O validators.  The fixed histology list and the staging list are
shared by icdo_validation.py and multi_dataset_icdo_validation.py.
-/

/-- The fixed list of valid histology values of the source. -/
def validHistology : List String :=
  [("Adenocarcinoma"), ("Ductal Carcinoma"), ("Small Cell Carcinoma"),
   ("Acinar adenocarcinoma"), ("Mucinous (colloid) acinar adenocarcinoma"),
   ("Signet ring-like cell acinar adenocarcinoma"),
   ("Sarcomatoid acinar adenocarcinoma"),
   ("Prostatic intraepithelial neoplasia (high grade)"),
   ("Intraductal carcinoma"), ("Papillary Ductal Adenocarcinoma"),
   ("Urothelial Carcinoma"), ("Squamous cell carcinoma"),
   ("Basal cell carcinoma"), ("Well-differentiated neuroendocrine tumor"),
   ("Large cell neuroendocrine carcinoma")]

/-- The fixed list of valid staging systems of the source. -/
def stagingVals : List String := [("AJCC9"), ("AJCC8"), ("AJCC7")]

/-- One row of the Levenshtein dynamic program (substitution cost 2),
walking the second word; `diag`, `left` and `prev` carry the three
neighbouring cells. -/
def levStepAux (c : Char) : List Char → Nat → Nat → List Nat → List Nat
  | [], _, _, _ => []
  | tc :: trest, diag, left, prev =>
    let up := prev.headD 0
    let d := min (min (up + 1) (left + 1)) (diag + (if c = tc then 0 else 2))
    d :: levStepAux c trest up d (prev.tailD [])

/-- Advance the Levenshtein dynamic program by one character of the first
word. -/
def levRow (t : List Char) (prev : List Nat) (c : Char) : List Nat :=
  let first := prev.headD 0 + 1
  first :: levStepAux c t (prev.headD 0) first (prev.tailD [])

/-- Levenshtein distance with substitution cost 2 (so equal to the
insert/delete edit distance). -/
def levenshtein2 (s t : List Char) : Nat :=
  (s.foldl (levRow t) (List.range (t.length + 1))).getLastD 0

/-- Modelled from the spec: the similarity score of the external fuzzy
matching collaborator (`fuzzywuzzy`), which the spec describes as a
Levenshtein-ratio metric on a 0-100 scale over the processed
(trimmed, lower-cased) strings. -/
def fuzzScore (q c : String) : Nat :=
  let a := (pyStripLower q).data
  let b := c.data
  let lensum := a.length + b.length
  if lensum = 0 then 100
  else (100 * (lensum - levenshtein2 a b)) / lensum

/-- Modelled from the spec: `process.extractOne(query, choices)` of the
external fuzzy matching collaborator — the first choice attaining the
highest similarity score, with its score. -/
def extractOne (q : String) (choices : List String) : String × Nat :=
  match choices with
  | [] => (("" : String), 0)
  | c :: cs =>
    cs.foldl (fun best ch => if fuzzScore q ch > best.2 then (ch, fuzzScore q ch) else best)
      (c, fuzzScore q c)

/-- Legacy histology issue message (icdo_validation.py): the generic
standard-values suggestion. -/
def histLegacyMsg (v : Value) : String :=
  ("Invalid histology value: ") ++ squo ++ pyStr v ++ squo ++
    (". Suggested correction: Use one of the standard values, such as ") ++
    squo ++ ("Adenocarcinoma") ++ squo ++ (", ") ++ squo ++ ("Ductal Carcinoma") ++ squo ++
    (", etc.")

/-- Legacy histology check (icdo_validation.py): plain membership of the
raw value in the fixed list; returns the error message or nothing. -/
def validate_histology_l (v : Value) : Option String :=
  if !(pyMem v (validHistology.map .VStr)) then some (histLegacyMsg v) else none

/-- Staging issue message (both ICD-O validators). -/
def stagingMsg (v : Value) : String :=
  ("Invalid staging system value: ") ++ squo ++ pyStr v ++ squo ++
    (". Suggested correction: Use one of the standard values, such as ") ++
    squo ++ ("AJCC9") ++ squo ++ (", ") ++ squo ++ ("AJCC8") ++ squo ++ (", or ") ++
    squo ++ ("AJCC7") ++ squo ++ (".")

/-- Legacy staging check (icdo_validation.py): plain membership of the raw
value. -/
def validate_staging_l (v : Value) : Option String :=
  if !(pyMem v (stagingVals.map .VStr)) then some (stagingMsg v) else none

/-- Fuzzy-path histology issue message carrying the fuzzy suggestion
(multi_dataset_icdo_validation.py). -/
def histSuggMsg (s c : String) : String :=
  ("Invalid histology value: ") ++ squo ++ s ++ squo ++
    (". Suggested correction: ") ++ squo ++ c ++ squo ++ (".")

/-- Fuzzy-path generic histology issue message. -/
def histGenericMsg (s : String) : String :=
  ("Invalid histology value: ") ++ squo ++ s ++ squo ++
    (". Suggested correction: Use one of the standard values, such as ") ++
    squo ++ ("Adenocarcinoma") ++ squo ++ (", ") ++ squo ++ ("Ductal Carcinoma") ++ squo ++
    (", etc.")

/-- Fuzzy-path histology check, translating `validate_histology` of
multi_dataset_icdo_validation.py: the value is trimmed and lower-cased
and compared with the lower-cased list; on failure `extractOne` is run
against the lower-cased list and its candidate is suggested verbatim
when the score exceeds 80.  A non-string value reaches `.strip()` and
raises AttributeError. -/
def validate_histology_m (v : Value) : Except String (Option String) :=
  match v with
  | .VStr s =>
    let norm := pyStripLower s
    let validNorm := validHistology.map strLower
    if !(validNorm.contains norm) then
      let best := extractOne s validNorm
      if best.2 > 80 then .ok (some (histSuggMsg s best.1))
      else .ok (some (histGenericMsg s))
    else .ok none
  | _ => .error ("AttributeError: strip on non-string")

/-- Cross-dataset staging check, translating `validate_staging_system` of
multi_dataset_icdo_validation.py: both the value and the allowed list
are normalized before the membership test.  A non-string value reaches
`.strip()` and raises AttributeError. -/
def validate_staging_m (v : Value) : Except String (Option String) :=
  match v with
  | .VStr s =>
    let norm := pyStripLower s
    let validNorm := stagingVals.map strLower
    if !(validNorm.contains norm) then .ok (some (stagingMsg v)) else .ok none
  | _ => .error ("AttributeError: strip on non-string")

/-- Accumulator of the ICD-O dataset loops: the issue list and the four
tally counters. -/
structure IcdoAcc where
  issues : List String
  totalH : Nat
  compH : Nat
  totalS : Nat
  compS : Nat
deriving DecidableEq, Repr

/-- One row of the legacy ICD-O loop (`validate_icdo_data` of
icdo_validation.py): a cell is examined only when it is truthy — a falsy
value (absent, empty string, 0, False) is skipped without touching the
tallies. -/
def icdoStepL (acc : IcdoAcc) (ir : Nat × Row) : IcdoAcc :=
  let hv := rowGet ir.2 ("Histology") (.VStr (""))
  let acc1 :=
    if pyTruthy hv then
      match validate_histology_l hv with
      | some m =>
          IcdoAcc.mk (acc.issues ++ [rowColHeader ir.1 ("Histology") ++ m])
            (acc.totalH + 1) acc.compH acc.totalS acc.compS
      | none =>
          IcdoAcc.mk acc.issues (acc.totalH + 1) (acc.compH + 1) acc.totalS acc.compS
    else acc
  let sv := rowGet ir.2 ("Staging System") (.VStr (""))
  if pyTruthy sv then
    match validate_staging_l sv with
    | some m =>
        IcdoAcc.mk (acc1.issues ++ [rowColHeader ir.1 ("Staging System") ++ m])
          acc1.totalH acc1.compH (acc1.totalS + 1) acc1.compS
    | none =>
        IcdoAcc.mk acc1.issues acc1.totalH acc1.compH (acc1.totalS + 1) (acc1.compS + 1)
  else acc1

/-- Final accumulator of the legacy ICD-O validator over a dataset. -/
def icdoFinalL (ds : Dataset) : IcdoAcc :=
  ds.rows.enum.foldl icdoStepL (IcdoAcc.mk [] 0 0 0 0)

/-- Compliance percentage of the ICD-O validators: `valid / total * 100`
when the total is positive, otherwise 0. -/
def icdoRate (c t : Nat) : ℚ :=
  if t > 0 then (c : ℚ) / (t : ℚ) * 100 else 0

/-- Dataset-level legacy ICD-O validator, translating `validate_icdo_data`
of icdo_validation.py: the issue list and the Histology and Staging
System compliance percentages. -/
def validate_icdo_data_l (ds : Dataset) : List String × (ℚ × ℚ) :=
  let fin := icdoFinalL ds
  (fin.issues, (icdoRate fin.compH fin.totalH, icdoRate fin.compS fin.totalS))

/-- One row of the cross-dataset ICD-O loop (`validate_icdo_data` of
multi_dataset_icdo_validation.py); the fuzzy histology check can raise
on a truthy non-string value (NaN included). -/
def icdoStepM (acc : IcdoAcc) (ir : Nat × Row) : Except String IcdoAcc := do
  let hv := rowGet ir.2 ("Histology") (.VStr (""))
  let acc1 ←
    if pyTruthy hv then do
      let r ← validate_histology_m hv
      match r with
      | some m =>
          pure (IcdoAcc.mk (acc.issues ++ [rowColHeader ir.1 ("Histology") ++ m])
            (acc.totalH + 1) acc.compH acc.totalS acc.compS)
      | none =>
          pure (IcdoAcc.mk acc.issues (acc.totalH + 1) (acc.compH + 1) acc.totalS acc.compS)
    else pure acc
  let sv := rowGet ir.2 ("Staging System") (.VStr (""))
  if pyTruthy sv then do
    let r ← validate_staging_m sv
    match r with
    | some m =>
        pure (IcdoAcc.mk (acc1.issues ++ [rowColHeader ir.1 ("Staging System") ++ m])
          acc1.totalH acc1.compH (acc1.totalS + 1) acc1.compS)
    | none =>
        pure (IcdoAcc.mk acc1.issues acc1.totalH acc1.compH (acc1.totalS + 1) (acc1.compS + 1))
  else pure acc1

/-- Dataset-level cross-dataset ICD-O validator. -/
def validate_icdo_data_m (ds : Dataset) : Except String (List String × (ℚ × ℚ)) := do
  let fin ← ds.rows.enum.foldlM icdoStepM (IcdoAcc.mk [] 0 0 0 0)
  pure (fin.issues, (icdoRate fin.compH fin.totalH, icdoRate fin.compS fin.totalS))

/-- Compliance rate of the ICD-10 report paths (the main blocks of
icd10_validation.py and multi_dataset_validation.py):
`valid / total * 100` when the total is positive, otherwise 100. -/
def complianceRate100 (v t : Nat) : ℚ :=
  if t > 0 then (v : ℚ) / (t : ℚ) * 100 else 100

/-- Per-column compliance summary of the ICD-10 report paths. -/
def icd10SummaryRates (tallies : Tallies) : List (String × ℚ) :=
  tallies.map (fun t => (t.1, complianceRate100 t.2.1 t.2.2))

/-!
Error-frequency summary of `generate_compliance_report` in
multi_dataset_icdo_validation.py.  The report function is called once per
dataset, so each frequency table sees one dataset's issues only.
-/

/-- Structural splitter on one character, modelling Python `str.split`. -/
def splitOnCharAux (c : Char) : List Char → List Char → List (List Char)
  | [], acc => [acc.reverse]
  | x :: xs, acc =>
    if x = c then acc.reverse :: splitOnCharAux c xs []
    else splitOnCharAux c xs (x :: acc)

/-- Extraction of the frequency key from an issue message: the text between
the first and second single quote (the source's `issue.split("'")[1]`). -/
def firstQuoted (issue : String) : String :=
  String.mk ((splitOnCharAux (Char.ofNat 39) issue.data []).getD 1 [])

/-- Add one occurrence of a key to the summary, keeping first-seen
insertion order (the Python dict). -/
def bumpCount : List (String × Nat) → String → List (String × Nat)
  | [], k => [(k, 1)]
  | (a, n) :: rest, k =>
    if a = k then (a, n + 1) :: rest else (a, n) :: bumpCount rest k

/-- Unsorted error summary: fold the extracted keys of the issue list into
the insertion-ordered count table. -/
def errorSummary (issues : List String) : List (String × Nat) :=
  issues.foldl (fun acc i => bumpCount acc (firstQuoted i)) []

/-- Descending-count order on summary entries. -/
def rdescCount (a b : String × Nat) : Prop := b.2 ≤ a.2

instance : DecidableRel rdescCount := fun a b => inferInstanceAs (Decidable (b.2 ≤ a.2))

instance : IsTotal (String × Nat) rdescCount := ⟨fun a b => le_total b.2 a.2⟩

instance : IsTrans (String × Nat) rdescCount := ⟨fun _ _ _ hab hbc => le_trans hbc hab⟩

/-- Sorted error summary of one dataset's report: Python's stable
`sorted(..., reverse=True)` on the count, modelled by the stable
insertion sort. -/
def sortedErrorSummary (issues : List String) : List (String × Nat) :=
  List.insertionSort rdescCount (errorSummary issues)

/-- The frequency tables the multi-dataset ICD-O main loop prints: one per
dataset, each from that dataset's issues alone. -/
def perDatasetSummaries (datasets : List (List String)) : List (List (String × Nat)) :=
  datasets.map sortedErrorSummary

/-- Total count a summary assigns to a key (0 when absent). -/
def countIn : List (String × Nat) → String → Nat
  | [], _ => 0
  | p :: rest, k => (if p.1 = k then p.2 else 0) + countIn rest k

/-!
Supporting lemmas.
-/

theorem drop01Digit_suffix (cs : List Char) : drop01Digit cs <:+ cs := by
  cases cs with
  | nil => exact List.suffix_rfl
  | cons d r =>
    simp only [drop01Digit]
    split
    · exact List.suffix_cons d r
    · exact List.suffix_rfl

theorem dropFrac_suffix {cs r : List Char} (h : dropFrac cs = some r) : r <:+ cs := by
  cases cs with
  | nil =>
    simp only [dropFrac, Option.some.injEq] at h
    subst h
    exact List.suffix_rfl
  | cons c rest =>
    simp only [dropFrac] at h
    split at h
    · split at h
      · cases h
      · rw [Option.some.injEq] at h
        subst h
        exact (List.dropWhile_suffix Char.isDigit).trans (List.suffix_cons c rest)
    · rw [Option.some.injEq] at h
      subst h
      exact List.suffix_rfl

theorem parseCode_suffix {cs r : List Char} (h : parseCode cs = some r) : r <:+ cs := by
  match cs with
  | [] => cases h
  | [c] => cases h
  | c :: d :: rest =>
    simp only [parseCode] at h
    split at h
    · split at h
      · exact (dropFrac_suffix h).trans
          ((drop01Digit_suffix rest).trans
            ((List.suffix_cons d rest).trans (List.suffix_cons c (d :: rest))))
      · cases h
    · cases h

theorem parseRange_suffix {cs r : List Char} (h : parseRange cs = some r) : r <:+ cs := by
  unfold parseRange at h
  cases hpc : parseCode cs with
  | none => rw [hpc] at h; cases h
  | some r1 =>
    rw [hpc] at h
    cases r1 with
    | nil =>
      dsimp only at h
      rw [Option.some.injEq] at h
      subst h
      exact parseCode_suffix hpc
    | cons c r2 =>
      dsimp only at h
      split at h
      · exact (parseCode_suffix h).trans ((List.suffix_cons c r2).trans (parseCode_suffix hpc))
      · rw [Option.some.injEq] at h
        subst h
        exact parseCode_suffix hpc

theorem parseRanges_suffix (fuel : Nat) (cs : List Char) : parseRanges fuel cs <:+ cs := by
  induction fuel generalizing cs with
  | zero => exact List.suffix_rfl
  | succ n ih =>
    cases cs with
    | nil => exact List.suffix_rfl
    | cons c r =>
      simp only [parseRanges]
      split
      · cases hpr : parseRange r with
        | none => exact List.suffix_rfl
        | some r2 =>
          exact (ih r2).trans ((parseRange_suffix hpr).trans (List.suffix_cons c r))
      · exact List.suffix_rfl

theorem matchCoDAux_suffix {cs r : List Char} (h : matchCoDAux cs = some r) : r <:+ cs := by
  unfold matchCoDAux at h
  cases hpr : parseRange cs with
  | none => rw [hpr] at h; cases h
  | some r1 =>
    rw [hpr] at h
    rw [Option.some.injEq] at h
    subst h
    exact (parseRanges_suffix cs.length r1).trans (parseRange_suffix hpr)

theorem extractOne_fold_mem (q : String) (cs : List String) (b : String × Nat)
    (l : List String) (hb : b.1 ∈ l) (hcs : ∀ x ∈ cs, x ∈ l) :
    (cs.foldl (fun best ch => if fuzzScore q ch > best.2 then (ch, fuzzScore q ch) else best)
      b).1 ∈ l := by
  induction cs generalizing b with
  | nil => exact hb
  | cons x xs ih =>
    simp only [List.foldl_cons]
    apply ih
    · split
      · exact hcs x (List.mem_cons_self x xs)
      · exact hb
    · intro y hy
      exact hcs y (List.mem_cons_of_mem x hy)

theorem extractOne_mem (q : String) (choices : List String) (hne : choices ≠ []) :
    (extractOne q choices).1 ∈ choices := by
  cases choices with
  | nil => exact absurd rfl hne
  | cons c cs =>
    unfold extractOne
    exact extractOne_fold_mem q cs (c, fuzzScore q c) (c :: cs)
      (List.mem_cons_self c cs) (fun x hx => List.mem_cons_of_mem c hx)

theorem countIn_bump (l : List (String × Nat)) (k j : String) :
    countIn (bumpCount l k) j = countIn l j + (if j = k then 1 else 0) := by
  induction l with
  | nil =>
    simp only [bumpCount, countIn]
    by_cases h : j = k
    · subst h; simp
    · rw [if_neg (fun hh => h hh.symm), if_neg h]
  | cons p rest ih =>
    simp only [bumpCount]
    split
    next hpk =>
      simp only [countIn]
      by_cases h : j = k
      · subst h; rw [if_pos hpk, if_pos hpk, if_pos rfl]; omega
      · have hpj : ¬ (p.1 = j) := fun hh => h (hh ▸ hpk)
        rw [if_neg hpj, if_neg hpj, if_neg h]; omega
    next hpk =>
      simp only [countIn, ih]
      omega

theorem countIn_foldl (ks : List String) (acc : List (String × Nat)) (j : String) :
    countIn (ks.foldl bumpCount acc) j = countIn acc j + ks.count j := by
  induction ks generalizing acc with
  | nil => simp
  | cons k ks ih =>
    simp only [List.foldl_cons, ih, countIn_bump, List.count_cons, beq_iff_eq]
    rcases eq_or_ne j k with h | h
    · subst h; simp; omega
    · rw [if_neg h, if_neg h.symm]; omega

theorem countIn_eq_sum (l : List (String × Nat)) (j : String) :
    countIn l j = (l.map (fun p => if p.1 = j then p.2 else 0)).sum := by
  induction l with
  | nil => rfl
  | cons p rest ih => simp [countIn, ih]

theorem countIn_perm {l l' : List (String × Nat)} (h : l.Perm l') (j : String) :
    countIn l j = countIn l' j := by
  rw [countIn_eq_sum, countIn_eq_sum]
  exact (h.map (fun p => if p.1 = j then p.2 else 0)).sum_eq

/-!
Claim theorems.
-/

set_option maxRecDepth 10000

/-- C1, counterexample.  The claim defines the compliance rate of a column
with zero applicable rows as 100%, but both ICD-O validators report 0%
there: on a dataset with no rows, `validate_icdo_data` reports a 0%
compliance pair, and 0 is not 100. -/
theorem c1_counterexample :
    validate_icdo_data_l (Dataset.mk [("Histology"), ("Staging System")] []) = ([], (0, 0)) ∧
    validate_icdo_data_m (Dataset.mk [("Histology"), ("Staging System")] []) =
      Except.ok ([], (0, 0)) ∧
    (0 : ℚ) ≠ 100 := by
  refine ⟨by decide, by decide, by norm_num⟩

/-- C1, amended.  Whenever the total count is positive, every reported
compliance rate equals valid/total × 100; with a zero total the ICD-10
report paths report 100% while the ICD-O validators report 0%. -/
theorem c1_rates :
    (∀ v t : Nat, 0 < t →
      complianceRate100 v t = (v : ℚ) / (t : ℚ) * 100 ∧
      icdoRate v t = (v : ℚ) / (t : ℚ) * 100) ∧
    (∀ v : Nat, complianceRate100 v 0 = 100 ∧ icdoRate v 0 = 0) := by
  constructor
  · intro v t ht
    exact ⟨if_pos ht, if_pos ht⟩
  · intro v
    exact ⟨if_neg (by omega), if_neg (by omega)⟩

/-- Witness for `c1_rates` at valid count 1 and total 2. -/
theorem c1_rates_witness :
    complianceRate100 1 2 = (1 : ℚ) / (2 : ℚ) * 100 ∧
    icdoRate 1 2 = (1 : ℚ) / (2 : ℚ) * 100 :=
  c1_rates.1 1 2 (by decide)

/-- C7.  The engine is claimed never to raise on a malformed field value,
but the cross-dataset ICD-O validator raises AttributeError on a NaN
Histology cell (NaN is truthy, so it reaches `.strip()`), and the legacy
ICD-10 validator raises AttributeError on an integer Cause of Death
(which reaches `.startswith`). -/
theorem c7_code_raises :
    validate_icdo_data_m (Dataset.mk [("Histology")] [[(("Histology"), .VNaN)]]) =
      Except.error ("AttributeError: strip on non-string") ∧
    validateICD10Legacy (Dataset.mk [("Cause of Death")] [[(("Cause of Death"), .VInt 7)]]) =
      Except.error ("AttributeError: startswith on non-string") ∧
    pyIsNA .VNaN = true := by decide

/-- C9, counterexample.  The claim says a value of 0 or the empty string is
still tallied and evaluated; but the legacy ICD-O validator's truthiness
gate skips every falsy cell: three rows holding an empty-string
Histology, a 0 Histology and a False Staging System leave the
accumulator untouched (all totals 0, no issues), although none of these
values is a missing/NaN marker. -/
theorem c9_counterexample :
    icdoFinalL (Dataset.mk [("Histology"), ("Staging System")]
        [[(("Histology"), .VStr (""))], [(("Histology"), .VInt 0)],
         [(("Staging System"), .VBool false)]]) =
      IcdoAcc.mk [] 0 0 0 0 ∧
    pyIsNA (.VStr ("")) = false ∧ pyIsNA (.VInt 0) = false ∧
    pyIsNA (.VBool false) = false := by decide

/-- C9, amended.  In the ICD-O paths any falsy value (0, empty string,
False, None) is skipped entirely — the row step leaves the accumulator
unchanged; in the ICD-10 paths 0 and the empty string are genuinely
tallied and evaluated (only the explicit missing markers count as
null), as the two concrete runs show: an empty-string or 0 Vital Status
is counted in the total and judged invalid. -/
theorem c9_nulls :
    (∀ (i : Nat) (row : Row) (acc : IcdoAcc),
      pyTruthy (rowGet row ("Histology") (.VStr (""))) = false →
      pyTruthy (rowGet row ("Staging System") (.VStr (""))) = false →
      icdoStepL acc (i, row) = acc) ∧
    validateICD10Multi (Dataset.mk [("Vital Status")] [[(("Vital Status"), .VStr (""))]]) ("D") =
      ([multiStdMsg ("D") 0 ("Vital Status") (.VStr ("")) [("Alive"), ("Dead")]],
       [(("Vital Status"), 0, 1)]) ∧
    validateICD10Legacy (Dataset.mk [("Vital Status")] [[(("Vital Status"), .VInt 0)]]) =
      Except.ok ([legacyStdMsg 0 ("Vital Status") (.VInt 0) [("Alive"), ("Dead")]],
       [(("Vital Status"), 0, 1)]) := by
  refine ⟨?_, by decide, by decide⟩
  intro i row acc h1 h2
  simp [icdoStepL, h1, h2]

/-- Witness for `c9_nulls` on a row whose Histology is 0 and whose Staging
System is absent. -/
theorem c9_nulls_witness :
    pyTruthy (rowGet [(("Histology"), .VInt 0)] ("Histology") (.VStr (""))) = false ∧
    icdoStepL (IcdoAcc.mk [] 0 0 0 0) (0, [(("Histology"), .VInt 0)]) =
      IcdoAcc.mk [] 0 0 0 0 :=
  ⟨by decide, c9_nulls.1 0 [(("Histology"), .VInt 0)] (IcdoAcc.mk [] 0 0 0 0)
    (by decide) (by decide)⟩

/-- C4, counterexample.  The claim implies the declared binary token set
also passes in the legacy path (with None additionally accepted); but
the legacy binary check accepts only `1` or `None`, so the declared
token `'1'` — a member of the token set — is rejected with an issue by
the legacy evaluator. -/
theorem c4_counterexample :
    pyMem (.VStr ("1")) binaryTokens = true ∧
    evalLegacyCell 0 ("On Clinical Trial") octLegacyRule (.VStr ("1")) =
      Except.ok (Outcome.issue (legacyBinaryMsg 0 ("On Clinical Trial") (.VStr ("1")))) := by
  decide

/-- C4, amended.  In the cross-dataset path a non-null binary value draws an
issue exactly when it is outside the declared token set (so 2 and
`"yes"` are invalid); in the legacy path an absent/None value is an
implicit pass but the token set does not carry over: of the declared
tokens only `1` and `True` pass, while `0`, `False` and the four string
tokens are rejected. -/
theorem c4_binary :
    (∀ v, (evalMultiCell ("D") 0 ("On Clinical Trial") octMultiRule v).isIssue =
      (!(pyIsNA v) && !(pyMem v binaryTokens))) ∧
    (evalMultiCell ("D") 0 ("On Clinical Trial") octMultiRule (.VInt 2)).isIssue = true ∧
    (evalMultiCell ("D") 0 ("On Clinical Trial") octMultiRule (.VStr ("yes"))).isIssue = true ∧
    evalLegacyCell 0 ("On Clinical Trial") octLegacyRule .VNone = Except.ok Outcome.valid ∧
    evalLegacyCell 0 ("On Clinical Trial") octLegacyRule (.VInt 1) = Except.ok Outcome.valid ∧
    evalLegacyCell 0 ("On Clinical Trial") octLegacyRule (.VBool true) = Except.ok Outcome.valid ∧
    exceptIsIssue (evalLegacyCell 0 ("On Clinical Trial") octLegacyRule (.VInt 0)) = true ∧
    exceptIsIssue (evalLegacyCell 0 ("On Clinical Trial") octLegacyRule (.VBool false)) = true ∧
    exceptIsIssue (evalLegacyCell 0 ("On Clinical Trial") octLegacyRule (.VStr ("0"))) = true ∧
    exceptIsIssue (evalLegacyCell 0 ("On Clinical Trial") octLegacyRule (.VStr ("True"))) = true ∧
    exceptIsIssue (evalLegacyCell 0 ("On Clinical Trial") octLegacyRule (.VStr ("False"))) = true := by
  refine ⟨?_, by decide, by decide, by decide, by decide, by decide, by decide, by decide,
    by decide, by decide, by decide⟩
  intro v
  cases v with
  | VNone => rfl
  | VNaN => rfl
  | VInt n =>
    cases hpm : pyMem (Value.VInt n) binaryTokens <;>
      simp [evalMultiCell, octMultiRule, pyIsNA, hpm, Outcome.isIssue]
  | VBool b =>
    cases hpm : pyMem (Value.VBool b) binaryTokens <;>
      simp [evalMultiCell, octMultiRule, pyIsNA, hpm, Outcome.isIssue]
  | VStr s =>
    cases hpm : pyMem (Value.VStr s) binaryTokens <;>
      simp [evalMultiCell, octMultiRule, pyIsNA, hpm, Outcome.isIssue]

/-- C10.  In the legacy path the binary check validates exactly the values
that are null markers or Python-equal to 1 (hence also True), and each
of `0`, `False`, `'0'`, `'1'`, `'True'`, `'False'` draws an issue. -/
theorem c10_legacy_binary :
    (∀ v, evalLegacyCell 0 ("On Clinical Trial") octLegacyRule v = Except.ok Outcome.valid ↔
      (pyIsNA v = true ∨ pyEq v (.VInt 1) = true)) ∧
    evalLegacyCell 0 ("On Clinical Trial") octLegacyRule (.VInt 1) = Except.ok Outcome.valid ∧
    evalLegacyCell 0 ("On Clinical Trial") octLegacyRule (.VBool true) = Except.ok Outcome.valid ∧
    evalLegacyCell 0 ("On Clinical Trial") octLegacyRule .VNone = Except.ok Outcome.valid ∧
    exceptIsIssue (evalLegacyCell 0 ("On Clinical Trial") octLegacyRule (.VInt 0)) = true ∧
    exceptIsIssue (evalLegacyCell 0 ("On Clinical Trial") octLegacyRule (.VBool false)) = true ∧
    exceptIsIssue (evalLegacyCell 0 ("On Clinical Trial") octLegacyRule (.VStr ("0"))) = true ∧
    exceptIsIssue (evalLegacyCell 0 ("On Clinical Trial") octLegacyRule (.VStr ("1"))) = true ∧
    exceptIsIssue (evalLegacyCell 0 ("On Clinical Trial") octLegacyRule (.VStr ("True"))) = true ∧
    exceptIsIssue (evalLegacyCell 0 ("On Clinical Trial") octLegacyRule (.VStr ("False"))) = true := by
  refine ⟨?_, by decide, by decide, by decide, by decide, by decide, by decide, by decide,
    by decide, by decide⟩
  intro v
  cases v <;>
    simp [evalLegacyCell, octLegacyRule, pyIsNA, pyMem, pyEq] <;>
    split <;> simp_all

/-- Membership via Python equality on a list of strings is plain list
membership. -/
theorem pyMem_VStr_iff (s : String) (l : List String) :
    pyMem (.VStr s) (l.map .VStr) = true ↔ s ∈ l := by
  induction l with
  | nil => simp [pyMem]
  | cons x xs ih =>
    simp only [List.map_cons, pyMem, List.any_cons] at *
    simp only [pyEq, beq_iff_eq, Bool.or_eq_true, List.mem_cons]
    constructor
    · rintro (h | h)
      · exact Or.inl h
      · exact Or.inr (ih.mp h)
    · rintro (h | h)
      · exact Or.inl h
      · exact Or.inr (ih.mpr h)

/-- C6, counterexample.  The claim says a normalization-only match is
invalid for every enumerated column other than Histology, naming Staging
System; but the cross-dataset staging check normalizes both sides, so
the lower-case value `ajcc9` — not an `allowed_values` entry — is
accepted as valid. -/
theorem c6_counterexample :
    validate_staging_m (.VStr ("ajcc9")) = Except.ok none ∧
    ¬ (("ajcc9") ∈ stagingVals) := by decide

/-- C6, amended.  Exact case-sensitive matches are valid everywhere, and a
case/whitespace-normalized match is valid in the cross-dataset ICD-O
path for both the fuzzy-enabled Histology column and Staging System;
only the legacy ICD-O staging check and the ICD-10 enumerated columns
require an exact match (so `alive` stays invalid for Vital Status). -/
theorem c6_enumerated :
    (∀ s : String, validate_staging_m (.VStr s) = Except.ok none ↔
      pyStripLower s ∈ stagingVals.map strLower) ∧
    (∀ s : String, validate_staging_l (.VStr s) = none ↔ s ∈ stagingVals) ∧
    (∀ s : String, validate_histology_m (.VStr s) = Except.ok none ↔
      pyStripLower s ∈ validHistology.map strLower) ∧
    (∀ s : String, evalLegacyCell 0 ("Vital Status") vitalLegacyRule (.VStr s) =
      Except.ok Outcome.valid ↔ s ∈ [("Alive"), ("Dead")]) ∧
    exceptIsIssue (evalLegacyCell 0 ("Vital Status") vitalLegacyRule (.VStr ("alive"))) = true := by
  refine ⟨?_, ?_, ?_, ?_, by decide⟩
  · intro s
    simp only [validate_staging_m]
    cases hc : (stagingVals.map strLower).contains (pyStripLower s) with
    | true =>
      simp only [hc, Bool.not_true]
      rw [if_neg (by decide)]
      exact iff_of_true rfl (List.elem_iff.mp hc)
    | false =>
      simp only [hc, Bool.not_false]
      rw [if_pos (by decide)]
      refine iff_of_false (fun h => Option.noConfusion (Except.ok.inj h)) (fun h => ?_)
      have hc2 : List.elem (pyStripLower s) (stagingVals.map strLower) = false := hc
      rw [List.elem_iff.mpr h] at hc2
      exact Bool.noConfusion hc2
  · intro s
    show (if (!(pyMem (Value.VStr s) (stagingVals.map Value.VStr))) = true
        then some (stagingMsg (Value.VStr s)) else none) = none ↔ s ∈ stagingVals
    cases hpm : pyMem (Value.VStr s) (stagingVals.map Value.VStr) with
    | true =>
      rw [if_neg (by decide)]
      exact iff_of_true rfl ((pyMem_VStr_iff s _).mp hpm)
    | false =>
      rw [if_pos (by decide)]
      refine iff_of_false (fun h => Option.noConfusion h) (fun h => ?_)
      rw [(pyMem_VStr_iff s _).mpr h] at hpm
      exact Bool.noConfusion hpm
  · intro s
    simp only [validate_histology_m]
    cases hc : (validHistology.map strLower).contains (pyStripLower s) with
    | true =>
      simp only [hc, Bool.not_true]
      rw [if_neg (by decide)]
      exact iff_of_true rfl (List.elem_iff.mp hc)
    | false =>
      simp only [hc, Bool.not_false]
      rw [if_pos (by decide)]
      refine iff_of_false (fun h => ?_) (fun h => ?_)
      · split at h
        · exact Option.noConfusion (Except.ok.inj h)
        · exact Option.noConfusion (Except.ok.inj h)
      · have hc2 : List.elem (pyStripLower s) (validHistology.map strLower) = false := hc
        rw [List.elem_iff.mpr h] at hc2
        exact Bool.noConfusion hc2
  · intro s
    show (if pyMem (Value.VStr s) ([("Alive"), ("Dead")].map Value.VStr) = true
        then Except.ok Outcome.valid
        else Except.ok (Outcome.issue (legacyStdMsg 0 ("Vital Status") (Value.VStr s)
          [("Alive"), ("Dead")]))) = Except.ok Outcome.valid ↔ s ∈ [("Alive"), ("Dead")]
    cases hpm : pyMem (Value.VStr s) ([("Alive"), ("Dead")].map Value.VStr) with
    | true =>
      rw [if_pos rfl]
      exact iff_of_true rfl ((pyMem_VStr_iff s _).mp hpm)
    | false =>
      rw [if_neg (by decide)]
      refine iff_of_false (fun h => ?_) (fun h => ?_)
      · exact Outcome.noConfusion (Except.ok.inj h)
      · rw [(pyMem_VStr_iff s _).mpr h] at hpm
        exact Bool.noConfusion hpm

/-- C3, counterexample.  The claim says the fuzzy suggestion is the
candidate's original-case form, `Adenocarcinoma` for the misspelled
`adenocarcimona`; but `extractOne` is run over the lower-cased list, so
the emitted suggestion is the normalized form `adenocarcinoma`, which
differs from the claimed original-case message. -/
theorem c3_counterexample :
    validate_histology_m (.VStr ("adenocarcimona")) =
      Except.ok (some (histSuggMsg ("adenocarcimona") ("adenocarcinoma"))) ∧
    histSuggMsg ("adenocarcimona") ("adenocarcinoma") ≠
      histSuggMsg ("adenocarcimona") ("Adenocarcinoma") := by decide

/-- C3, amended.  On a fuzzy miss the evaluator picks the highest-scoring
candidate from the lower-cased allowed list — so the suggestion is
always a member of that normalized list, never an original-case form;
for `adenocarcimona` the score 85 exceeds 80 and the suggestion is
`adenocarcinoma`, while `xyz` scores at most 80 against every candidate
and draws the generic standard-values message. -/
theorem c3_fuzzy :
    (∀ s : String, (extractOne s (validHistology.map strLower)).1 ∈
      validHistology.map strLower) ∧
    validate_histology_m (.VStr ("adenocarcimona")) =
      Except.ok (some (histSuggMsg ("adenocarcimona") ("adenocarcinoma"))) ∧
    validate_histology_m (.VStr ("xyz")) = Except.ok (some (histGenericMsg ("xyz"))) := by
  refine ⟨?_, by decide, by decide⟩
  intro s
  exact extractOne_mem s (validHistology.map strLower) (by decide)

/-- C5, counterexample.  The claim says the regex evaluation is equivalent
to a full-string anchored match; but Python `$` also matches just before
one final newline, so the string `C15` followed by a newline is accepted
as valid by the evaluator while the full-string anchored match rejects
it. -/
theorem c5_counterexample :
    evalMultiCell ("D") 0 ("Cause of Death") codMultiRule (.VStr (("C15") ++ nl)) =
      Outcome.valid ∧
    ¬ specFullMatchCoD (("C15") ++ nl) := by decide

/-- C5, amended.  The regex evaluation agrees with the full-string anchored
match up to one optional trailing newline: every full-string match is
accepted, and every accepted string is either a full-string match or
ends in a newline; the scenario values behave as claimed — `C15` and
`C15,C16.1-C20` are valid, `15C` is invalid with the format-correction
message, and a null value is valid. -/
theorem c5_regex :
    (∀ s : String, specFullMatchCoD s → pyMatchCoD s = true) ∧
    (∀ s : String, pyMatchCoD s = true →
      specFullMatchCoD s ∨ [Char.ofNat 10] <:+ s.data) ∧
    evalMultiCell ("D") 0 ("Cause of Death") codMultiRule (.VStr ("C15")) = Outcome.valid ∧
    evalMultiCell ("D") 0 ("Cause of Death") codMultiRule (.VStr ("C15,C16.1-C20")) =
      Outcome.valid ∧
    evalMultiCell ("D") 0 ("Cause of Death") codMultiRule (.VStr ("15C")) =
      Outcome.issue (multiRegexMsg ("D") 0 ("Cause of Death") (.VStr ("15C"))) ∧
    evalMultiCell ("D") 0 ("Cause of Death") codMultiRule .VNaN = Outcome.valid ∧
    evalMultiCell ("D") 0 ("Cause of Death") codMultiRule .VNone = Outcome.valid := by
  refine ⟨?_, ?_, by decide, by decide, by decide, by decide, by decide⟩
  · intro s h
    unfold pyMatchCoD
    rw [h]
    rfl
  · intro s h
    unfold pyMatchCoD at h
    cases hm : matchCoDAux s.data with
    | none => rw [hm] at h; exact Bool.noConfusion h
    | some r =>
      rw [hm] at h
      rcases Bool.or_eq_true_iff.mp h with h1 | h1
      · left
        unfold specFullMatchCoD
        rw [hm, eq_of_beq h1]
      · right
        have hr : r = [Char.ofNat 10] := eq_of_beq h1
        rw [hr] at hm
        exact matchCoDAux_suffix hm

/-- Witness for `c5_regex`: the full-string match `C15` is accepted by the
evaluator, and the accepted `C15` plus newline is a full match or ends
in a newline. -/
theorem c5_regex_witness :
    pyMatchCoD ("C15") = true ∧
    (specFullMatchCoD (("C15") ++ nl) ∨ [Char.ofNat 10] <:+ (("C15") ++ nl).data) :=
  ⟨c5_regex.1 ("C15") (by decide), c5_regex.2.1 (("C15") ++ nl) (by decide)⟩

/-- C2, counterexample.  The claim says that after the total count is
incremented exactly one of valid-increment or issue-append happens, and
that a present freeform value (Clinical Trial Numbers) and an accepted
binary token count as valid; but on a row holding the accepted token
`'1'` for On Clinical Trial and a present Clinical Trial Numbers value,
the cross-dataset validator increments both totals while incrementing
neither valid count and appending no issue. -/
theorem c2_counterexample :
    validateICD10Multi (Dataset.mk [("On Clinical Trial"), ("Clinical Trial Numbers")]
        [[(("On Clinical Trial"), .VStr ("1")),
          (("Clinical Trial Numbers"), .VStr ("NCT01234567"))]]) ("D") =
      ([], [(("On Clinical Trial"), 0, 1), (("Clinical Trial Numbers"), 0, 1)]) ∧
    pyMem (.VStr ("1")) binaryTokens = true ∧
    validateICD10Legacy (Dataset.mk [("Clinical Trial Numbers")]
        [[(("Clinical Trial Numbers"), .VStr ("NCT01234567"))]]) =
      Except.ok ([], [(("Clinical Trial Numbers"), 0, 1)]) := by decide

/-- C2, amended.  Every applicable rule increments the column's total
count, and then exactly one of valid-increment or issue-append happens
except in the fall-through cases, where neither does: the ICD Code
column always falls through (its catalog entry matches no branch), a
non-null Clinical Trial Numbers value falls through, and in the
cross-dataset path a non-null accepted binary token falls through; for
every other catalog column the outcome is never a fall-through. -/
theorem c2_tally :
    (∀ (idx : Nat) (v : Value),
      evalLegacyCell idx ("ICD Code") ⟨false, some (.vtag ("ICD code list")), false⟩ v =
        Except.ok Outcome.skip) ∧
    (∀ (idx : Nat) (v : Value),
      evalLegacyCell idx ("Clinical Trial Numbers") ctnLegacyRule v = Except.ok Outcome.skip ↔
        pyIsNA v = false) ∧
    (∀ (idx : Nat) (v : Value) (cr : String × LegacyRule), cr ∈ legacyRules →
      cr.1 ≠ ("ICD Code") → cr.1 ≠ ("Clinical Trial Numbers") →
      evalLegacyCell idx cr.1 cr.2 v ≠ Except.ok Outcome.skip) ∧
    (∀ (name : String) (idx : Nat) (v : Value),
      evalMultiCell name idx ("On Clinical Trial") octMultiRule v = Outcome.skip ↔
        (pyIsNA v = false ∧ pyMem v binaryTokens = true)) ∧
    (∀ (name : String) (idx : Nat) (v : Value),
      evalMultiCell name idx ("ICD Code") ⟨false, false, some (.vtag ("ICD code list")), false⟩ v =
        Outcome.skip) ∧
    (∀ (name : String) (idx : Nat) (v : Value),
      evalMultiCell name idx ("Clinical Trial Numbers") ⟨true, false, none, false⟩ v =
        Outcome.skip ↔ pyIsNA v = false) ∧
    (∀ (name : String) (idx : Nat) (v : Value) (cr : String × MultiRule), cr ∈ multiRules →
      cr.1 ≠ ("ICD Code") → cr.1 ≠ ("Clinical Trial Numbers") → cr.1 ≠ ("On Clinical Trial") →
      evalMultiCell name idx cr.1 cr.2 v ≠ Outcome.skip) := by
  refine ⟨?_, ?_, ?_, ?_, ?_, ?_, ?_⟩
  · intro idx v
    cases v <;> rfl
  · intro idx v
    cases v <;> simp [evalLegacyCell, ctnLegacyRule, pyIsNA]
  · intro idx v cr hcr h1 h2
    fin_cases hcr <;>
      first
      | (exact absurd rfl h1)
      | (exact absurd rfl h2)
      | (cases v <;> simp [evalLegacyCell, validate_icd10_code, pyIsNA] <;> split <;> simp_all)
  · intro name idx v
    cases v with
    | VNone => simp [evalMultiCell, octMultiRule, pyIsNA]
    | VNaN => simp [evalMultiCell, octMultiRule, pyIsNA]
    | VInt n =>
      cases hpm : pyMem (Value.VInt n) binaryTokens <;>
        simp [evalMultiCell, octMultiRule, pyIsNA, hpm]
    | VBool b =>
      cases hpm : pyMem (Value.VBool b) binaryTokens <;>
        simp [evalMultiCell, octMultiRule, pyIsNA, hpm]
    | VStr s =>
      cases hpm : pyMem (Value.VStr s) binaryTokens <;>
        simp [evalMultiCell, octMultiRule, pyIsNA, hpm]
  · intro name idx v
    cases v <;> rfl
  · intro name idx v
    cases v <;> simp [evalMultiCell, pyIsNA]
  · intro name idx v cr hcr h1 h2 h3
    fin_cases hcr <;>
      first
      | (exact absurd rfl h1)
      | (exact absurd rfl h2)
      | (exact absurd rfl h3)
      | (cases v <;> simp [evalMultiCell, pyIsNA] <;> split <;> simp_all)

/-- Witness for `c2_tally`: Vital Status is in the legacy catalog, differs
from the two fall-through columns, and its evaluation of the string `x`
is not a fall-through. -/
theorem c2_tally_witness :
    evalLegacyCell 0 ("Vital Status") vitalLegacyRule (.VStr ("x")) ≠
      Except.ok Outcome.skip :=
  c2_tally.2.2.1 0 (.VStr ("x")) (("Vital Status"), vitalLegacyRule)
    (by decide) (by decide) (by decide)

/-- C8, counterexample.  The claim says the frequency table counts
occurrences across all datasets combined; but the report function is
invoked once per dataset, so two datasets whose issues share the same
first-quoted substring yield two tables each counting 1, and the
combined table (count 2) is produced for neither dataset. -/
theorem c8_counterexample :
    perDatasetSummaries
        [[rowColHeader 0 ("Histology") ++ histLegacyMsg (.VStr ("xyz"))],
         [rowColHeader 0 ("Histology") ++ histLegacyMsg (.VStr ("abc"))]] =
      [[(("Histology"), 1)], [(("Histology"), 1)]] ∧
    sortedErrorSummary
        [rowColHeader 0 ("Histology") ++ histLegacyMsg (.VStr ("xyz")),
         rowColHeader 0 ("Histology") ++ histLegacyMsg (.VStr ("abc"))] =
      [(("Histology"), 2)] ∧
    ¬ ([(("Histology"), 2)] ∈ perDatasetSummaries
        [[rowColHeader 0 ("Histology") ++ histLegacyMsg (.VStr ("xyz"))],
         [rowColHeader 0 ("Histology") ++ histLegacyMsg (.VStr ("abc"))]]) := by decide

/-- C8, amended.  Each dataset report's frequency table is built from that
dataset's issues alone: the table's count for a key equals the number of
that dataset's issue messages whose first quoted substring is the key,
the table is sorted descending by count, and ties keep first-seen order
(the concrete run counts `B` and `A` twice each and lists `B`, seen
first, first). -/
theorem c8_frequency :
    (∀ (issues : List String) (k : String),
      countIn (sortedErrorSummary issues) k = (issues.map firstQuoted).count k) ∧
    (∀ issues : List String, List.Sorted rdescCount (sortedErrorSummary issues)) ∧
    sortedErrorSummary [("x") ++ squo ++ ("B") ++ squo, ("x") ++ squo ++ ("A") ++ squo,
        ("y") ++ squo ++ ("B") ++ squo, ("y") ++ squo ++ ("A") ++ squo] =
      [(("B"), 2), (("A"), 2)] := by
  refine ⟨?_, ?_, by decide⟩
  · intro issues k
    have h1 : countIn (sortedErrorSummary issues) k = countIn (errorSummary issues) k :=
      countIn_perm (List.perm_insertionSort rdescCount (errorSummary issues)) k
    rw [h1]
    unfold errorSummary
    rw [show issues.foldl (fun acc i => bumpCount acc (firstQuoted i)) [] =
        (issues.map firstQuoted).foldl bumpCount [] from
      (List.foldl_map firstQuoted bumpCount issues []).symm]
    rw [countIn_foldl]
    simp [countIn]
  · intro issues
    exact List.sorted_insertionSort rdescCount (errorSummary issues)
